import Mathlib

/-!
Shallow embedding of the home-monitor scripts (Philips Hue command-line
tools) and proofs about them.

Conventions used throughout:
- Python integers are modelled as `Int` (or `Nat` where the source value is
  a count that is never negative).
- Python `%` on integers is floor-mod; for a positive modulus it agrees with
  the `Int.emod` that Lean writes `%`, so `%` is used directly.
- Python `//` is floor division; for a positive divisor it agrees with the
  `Int.ediv` that Lean writes `/`, so `/` is used directly.
- Python `int(x)` applied to a float truncates toward zero; it is modelled
  with `Int.tdiv` where a division is involved.
- Python `time.time()` differences are real-valued; elapsed times are
  modelled as `Rat`.
- A fallible external call (ISO-8601 parsing by `datetime.fromisoformat`)
  is modelled as an abstract function returning `Option`.
-/

namespace HomeMonitor

/-! ### lounge_color_loop.py -/

/-- The module constant `LOUNGE_COLOR_LIGHTS = [9, 12]`. -/
def LOUNGE_COLOR_LIGHTS : List Nat := [9, 12]

/-- The hue advance on each tick of `color_loop`:
`hue = (hue + 5000) % 65535`.  Python floor-mod with the positive modulus
65535 agrees with `Int.emod`, written `%` here. -/
def next_hue (h : Int) : Int := (h + 5000) % 65535

/-- `get_color_name` from lounge_color_loop.py: the if/elif chain mapping a
hue value to one of eight color-band labels. -/
def get_color_name (hue : Int) : String :=
  if hue < 3000 then "Red"
  else if hue < 8000 then "Orange"
  else if hue < 16000 then "Yellow"
  else if hue < 30000 then "Green"
  else if hue < 40000 then "Cyan"
  else if hue < 48000 then "Blue"
  else if hue < 54000 then "Purple"
  else "Pink"

/-- The eight color-band labels, in the order of the thresholds of
`get_color_name`. -/
def colorBandLabels : List String :=
  ["Red", "Orange", "Yellow", "Green", "Cyan", "Blue", "Purple", "Pink"]

/-- The band number (0..7) selected by the thresholds of `get_color_name`,
with the same if/elif chain as the source. -/
def colorBandIndex (hue : Int) : Nat :=
  if hue < 3000 then 0
  else if hue < 8000 then 1
  else if hue < 16000 then 2
  else if hue < 30000 then 3
  else if hue < 40000 then 4
  else if hue < 48000 then 5
  else if hue < 54000 then 6
  else 7

/-- The elapsed-duration check at the top of the `color_loop` body:
`if duration_seconds and (time.time() - start_time) > duration_seconds`.
`duration_seconds` is `None` (absent) or an `int`; Python truthiness makes
the conjunction false when it is `None` and also when it equals `0`.
The elapsed time `time.time() - start_time` is a float, modelled as `Rat`.
The result is `true` exactly when the loop breaks at this check. -/
def stopCheck (duration_seconds : Option Int) (elapsed : Rat) : Bool :=
  match duration_seconds with
  | none => false
  | some d => decide (d ≠ 0) && decide (elapsed > (d : Rat))

/-- The light ids to which `color_loop` issues a state update during its
first iteration, given the duration argument and the elapsed time observed
at the first check: none when the check breaks the loop, otherwise every id
in `LOUNGE_COLOR_LIGHTS` (the `for light_id in LOUNGE_COLOR_LIGHTS` loop
runs before anything else in the iteration). -/
def firstTickLightUpdates (duration_seconds : Option Int) (elapsed : Rat) :
    List Nat :=
  if stopCheck duration_seconds elapsed then [] else LOUNGE_COLOR_LIGHTS

/-! ### sensor_activity.py -/

/-- The state sub-record of a sensor, as read with `.get` in
`list_sensor_activity`: every field may be absent. -/
structure SensorState where
  lastupdated : Option String := none
  presence : Option Bool := none
  temperature : Option Int := none
  lightlevel : Option Int := none
  buttonevent : Option Int := none
deriving DecidableEq

/-- The config sub-record of a sensor; only `battery` is read. -/
structure SensorConfig where
  battery : Option Nat := none
deriving DecidableEq

/-- A raw sensor record as returned by `GET /sensors`: each of the four
fields read with `sensor_info.get(...)` may be absent. -/
structure SensorInfo where
  name : Option String := none
  type : Option String := none
  state : Option SensorState := none
  config : Option SensorConfig := none
deriving DecidableEq

/-- `sensor_info.get('name', 'Unknown')`. -/
def sensorName (info : SensorInfo) : String := info.name.getD "Unknown"

/-- `sensor_info.get('type', 'Unknown')`. -/
def sensorType (info : SensorInfo) : String := info.type.getD "Unknown"

/-- `sensor_info.get('state', \x7b\x7d)`: the state sub-record, defaulting
to an empty record. -/
def sensorState (info : SensorInfo) : SensorState := info.state.getD {}

/-- `sensor_info.get('config', \x7b\x7d)`: the config sub-record,
defaulting to an empty record. -/
def sensorConfig (info : SensorInfo) : SensorConfig := info.config.getD {}

/-- `state.get('lastupdated', 'none')`. -/
def sensorLastupdated (info : SensorInfo) : String :=
  (sensorState info).lastupdated.getD "none"

/-- The `sensor_data` dict built for each sensor in
`list_sensor_activity`. -/
structure SensorData where
  id : String
  name : String
  type : String
  lastupdated : String
  state : SensorState
  config : SensorConfig
deriving DecidableEq

/-- Builds the `sensor_data` dict from a sensors-map entry. -/
def mkSensorData (id : String) (info : SensorInfo) : SensorData :=
  { id := id
    name := sensorName info
    type := sensorType info
    lastupdated := sensorLastupdated info
    state := sensorState info
    config := sensorConfig info }

/-- The four display buckets of `list_sensor_activity`. -/
inductive Bucket where
  | motion
  | temperatureLight
  | dimmerSwitch
  | other
deriving DecidableEq

/-- The bucket selected for a declared sensor-type string by the if/elif
chain of `list_sensor_activity` (`none` when the chain appends to no list:
the types excluded by `not in ['Daylight', 'CLIPGenericStatus']`). -/
def classifySensorType (t : String) : Option Bucket :=
  if t == "ZLLPresence" then some .motion
  else if t == "ZLLTemperature" then some .temperatureLight
  else if t == "ZLLLightLevel" then some .temperatureLight
  else if t == "ZLLSwitch" then some .dimmerSwitch
  else if ¬ (t == "Daylight" ∨ t == "CLIPGenericStatus") then some .other
  else none

/-- The four accumulator lists of the grouping loop
(`motion_sensors`, `temperature_sensors`, `dimmer_switches`,
`other_sensors`). -/
structure Buckets where
  motion : List SensorData := []
  temperatureLight : List SensorData := []
  dimmerSwitch : List SensorData := []
  other : List SensorData := []
deriving DecidableEq

/-- One pass of the `for sensor_id, sensor_info in sensors.items()` loop:
build `sensor_data`, then run the if/elif chain appending it to at most one
of the four lists. -/
def groupStep (acc : Buckets) (entry : String × SensorInfo) : Buckets :=
  let t := sensorType entry.2
  let d := mkSensorData entry.1 entry.2
  if t == "ZLLPresence" then
    { acc with motion := acc.motion ++ [d] }
  else if t == "ZLLTemperature" then
    { acc with temperatureLight := acc.temperatureLight ++ [d] }
  else if t == "ZLLLightLevel" then
    { acc with temperatureLight := acc.temperatureLight ++ [d] }
  else if t == "ZLLSwitch" then
    { acc with dimmerSwitch := acc.dimmerSwitch ++ [d] }
  else if ¬ (t == "Daylight" ∨ t == "CLIPGenericStatus") then
    { acc with other := acc.other ++ [d] }
  else acc

/-- The whole grouping loop over the sensors map (items in iteration
order). -/
def groupSensors (sensors : List (String × SensorInfo)) : Buckets :=
  sensors.foldl groupStep {}

/-- Specification-side description of a single routing step: append the
record to the indicated bucket, or to none. -/
def appendToBucket (acc : Buckets) (b : Option Bucket) (d : SensorData) :
    Buckets :=
  match b with
  | some .motion => { acc with motion := acc.motion ++ [d] }
  | some .temperatureLight =>
      { acc with temperatureLight := acc.temperatureLight ++ [d] }
  | some .dimmerSwitch => { acc with dimmerSwitch := acc.dimmerSwitch ++ [d] }
  | some .other => { acc with other := acc.other ++ [d] }
  | none => acc

/-- The elapsed whole-second count computed by
`seconds = int(diff.total_seconds())`: the time difference is carried at
the microsecond resolution of `datetime`, and Python `int(...)` truncates
the float of seconds toward zero, which is `Int.tdiv` by 1000000.
(For the magnitudes a bridge timestamp can produce, the float rounding of
`total_seconds()` never moves the value across an integer, so truncating
the float agrees with truncating the exact rational.) -/
def secondsFromMicros (diffUs : Int) : Int := Int.tdiv diffUs 1000000

/-- The formatting chain of `get_time_ago` applied once the elapsed
whole-second count is known (lines computing the four labels).  Python
`//` on a nonnegative dividend with these positive divisors agrees with
`Int.ediv`, written `/` here. -/
def timeAgoOfSeconds (seconds : Int) : String :=
  if seconds < 60 then
    toString seconds ++ " seconds ago"
  else if seconds < 3600 then
    let minutes := seconds / 60
    toString minutes ++ " minute" ++ (if minutes ≠ 1 then "s" else "") ++ " ago"
  else if seconds < 86400 then
    let hours := seconds / 3600
    toString hours ++ " hour" ++ (if hours ≠ 1 then "s" else "") ++ " ago"
  else
    let days := seconds / 86400
    toString days ++ " day" ++ (if days ≠ 1 then "s" else "") ++ " ago"

/-- `get_time_ago` from sensor_activity.py.  The external call
`datetime.fromisoformat` (together with the timezone normalisation) is
modelled by the abstract argument `parse`, which returns the timestamp as
microseconds since the epoch, or `none` when the library call raises; the
surrounding `try/except` turns that failure into the literal
`"Error parsing: "` label.  `nowUs` is `datetime.now(timezone.utc)` in
microseconds. -/
def get_time_ago (parse : String → Option Int) (nowUs : Int)
    (timestamp_str : String) : String :=
  if timestamp_str == "none" ∨ timestamp_str == "" then "Never"
  else
    match parse (timestamp_str.replace "Z" "+00:00") with
    | none => "Error parsing: " ++ timestamp_str
    | some lastUpdateUs => timeAgoOfSeconds (secondsFromMicros (nowUs - lastUpdateUs))

/-! ### list_lights.py -/

/-- The brightness column of `list_lights`:
`f"\x7bint(bri/254*100)\x7d%" if on else "N/A"`.
The float expression `bri/254*100` truncated by `int(...)` equals the
rational floor `bri * 100 / 254` for every brightness on the 0..254 device
scale (the exact value is never within a float rounding error of an
integer it does not equal), so the conversion is written with `Nat`
division.  `isOn` is the Python variable `on` (a reserved token here). -/
def displayBrightness (isOn : Bool) (bri : Nat) : String :=
  if isOn then toString (bri * 100 / 254) ++ "%" else "N/A"

/-! ### simplify_office_dimmer.py and update_outdoor_automation.py -/

/-- An observable effect of a configuration-push script: the single HTTP
PUT it issues, or a printed line. -/
inductive PushEffect where
  | httpPut (url : String)
  | printLine (s : String)
deriving DecidableEq

/-- The behavior-instance URL targeted by simplify_office_dimmer.py. -/
def officeDimmerUrl : String :=
  "https://192.168.68.62/clip/v2/resource/behavior_instance/5915920b-c177-4773-b7f1-258e56200338"

/-- The behavior-instance URL targeted by update_outdoor_automation.py. -/
def outdoorAutomationUrl : String :=
  "https://192.168.68.62/clip/v2/resource/behavior_instance/3853720c-0c70-41ee-b2f5-b83a65e39090"

/-- The effect trace of simplify_office_dimmer.py from the PUT onward,
as a function of the response: one `requests.put`, then the status check
`if response.status_code == 200` choosing between the success print (with
the JSON echo of the body) and the error print (with the status code and
the text body).  `body` stands for the response body in both renderings;
the constant banner prints before the request are elided. -/
def runOfficeDimmerPush (status : Nat) (body : String) : List PushEffect :=
  [.httpPut officeDimmerUrl] ++
    (if status == 200 then
      [.printLine "\n[SUCCESS] OfficeDimmer simplified!", .printLine body]
    else
      [.printLine ("\n[ERROR] Status: " ++ toString status), .printLine body])

/-- The effect trace of update_outdoor_automation.py from the PUT onward,
with the same structure and its own messages. -/
def runOutdoorAutomationPush (status : Nat) (body : String) : List PushEffect :=
  [.httpPut outdoorAutomationUrl] ++
    (if status == 200 then
      [.printLine "\n✓ Automation updated successfully!", .printLine body]
    else
      [.printLine ("\n✗ Error: " ++ toString status), .printLine body])

/-- Number of HTTP requests in an effect trace. -/
def putCount (trace : List PushEffect) : Nat :=
  (trace.filter fun e =>
    match e with
    | .httpPut _ => true
    | .printLine _ => false).length

/-! ### Theorems -/

/-- Claim C1: the claim states that an explicit non-positive duration stops
the color loop at the first elapsed-time check before any light update.
The code instead guards the check with Python truthiness
(`if duration_seconds and ...`), so the explicitly supplied duration `0` is
treated exactly like an absent duration: the check never fires, the loop
runs forever, and the first iteration issues updates to both lounge
lights.  An explicit negative duration does stop at the first check.  This
theorem evaluates the embedded check at the failing input `0`. -/
theorem color_loop_zero_duration_runs_forever :
    (∀ e : Rat, stopCheck (some 0) e = false) ∧
    firstTickLightUpdates (some 0) 0 = [9, 12] ∧
    stopCheck (some (-1)) 0 = true ∧
    (∀ e : Rat, stopCheck none e = false) := by
  refine ⟨fun e => by simp [stopCheck], ?_, ?_, fun e => rfl⟩
  · simp [firstTickLightUpdates, stopCheck, LOUNGE_COLOR_LIGHTS]
  · norm_num [stopCheck]

set_option maxHeartbeats 1000000 in
/-- The band number is monotone in the hue. -/
lemma colorBandIndex_mono (h h2 : Int) (hle : h ≤ h2) :
    colorBandIndex h ≤ colorBandIndex h2 := by
  unfold colorBandIndex
  split_ifs <;> omega

/-- The band label is the label-table entry at the band number. -/
lemma get_color_name_eq_table (h : Int) :
    get_color_name h = colorBandLabels.getD (colorBandIndex h) "" := by
  unfold get_color_name colorBandIndex colorBandLabels
  split_ifs <;> rfl

/-- Every hue gets one of the eight labels. -/
lemma get_color_name_mem (h : Int) : get_color_name h ∈ colorBandLabels := by
  unfold get_color_name colorBandLabels
  split_ifs <;> simp

/-- Claim C4: for every hue in [0, 65535) the band function returns one of
the eight labels; the label is the entry of the label table selected by a
monotone step function of the hue over the thresholds 3000, 8000, 16000,
30000, 40000, 48000, 54000; and the four quoted sample points evaluate as
stated. -/
theorem get_color_name_band_structure :
    (∀ h : Int, 0 ≤ h → h < 65535 → get_color_name h ∈ colorBandLabels) ∧
    (∀ h h2 : Int, h ≤ h2 → colorBandIndex h ≤ colorBandIndex h2) ∧
    (∀ h : Int, get_color_name h = colorBandLabels.getD (colorBandIndex h) "") ∧
    get_color_name 0 = "Red" ∧ get_color_name 2999 = "Red" ∧
    get_color_name 3000 = "Orange" ∧ get_color_name 65534 = "Pink" :=
  ⟨fun h _ _ => get_color_name_mem h, colorBandIndex_mono,
   get_color_name_eq_table, rfl, rfl, rfl, rfl⟩

/-- Witness for C4 at concrete hues. -/
theorem get_color_name_band_structure_witness :
    get_color_name 12345 ∈ colorBandLabels ∧
    colorBandIndex 100 ≤ colorBandIndex 50000 :=
  ⟨get_color_name_band_structure.1 12345 (by decide) (by decide),
   get_color_name_band_structure.2.1 100 50000 (by decide)⟩

/-- Claim C5: each tick advances the hue by
`next_hue h = (h + 5000) % 65535`, and iterating from 0 stays in
[0, 65535) and never goes negative, for every iteration count; after 14
iterations the value is 4465. -/
theorem next_hue_range :
    (∀ h : Int, next_hue h = (h + 5000) % 65535) ∧
    (∀ n : Nat, 0 ≤ next_hue^[n] (0 : Int) ∧ next_hue^[n] (0 : Int) < 65535) ∧
    next_hue^[14] (0 : Int) = 4465 := by
  refine ⟨fun h => rfl, ?_, by decide⟩
  intro n
  induction n with
  | zero => exact ⟨le_refl 0, by norm_num⟩
  | succ k ih =>
      rw [Function.iterate_succ_apply']
      unfold next_hue
      exact ⟨Int.emod_nonneg _ (by norm_num), Int.emod_lt_of_pos _ (by norm_num)⟩

/-- A whole-second elapsed count passes through the microsecond truncation
unchanged. -/
lemma secondsFromMicros_whole (s : Int) :
    secondsFromMicros (s * 1000000) = s :=
  Int.mul_tdiv_cancel s (by norm_num)

/-- Truncation toward zero sends a difference of at least one whole second
in the past of zero to a negative count. -/
lemma secondsFromMicros_neg {d : Int} (h : d ≤ -1000000) :
    secondsFromMicros d < 0 := by
  unfold secondsFromMicros
  have h2 : d.tdiv 1000000 = -((-d).tdiv 1000000) := by
    rw [← Int.neg_tdiv, neg_neg]
  rw [h2, Int.tdiv_eq_ediv (by omega) (by norm_num)]
  omega

/-- Truncation toward zero sends a sub-second difference, in either
direction, to zero. -/
lemma secondsFromMicros_subsecond {d : Int} (h1 : -1000000 < d)
    (h2 : d < 1000000) : secondsFromMicros d = 0 := by
  unfold secondsFromMicros
  rcases le_or_lt 0 d with hd | hd
  · rw [Int.tdiv_eq_ediv hd (by norm_num)]
    omega
  · have h3 : d.tdiv 1000000 = -((-d).tdiv 1000000) := by
      rw [← Int.neg_tdiv, neg_neg]
    rw [h3, Int.tdiv_eq_ediv (by omega) (by norm_num)]
    omega

/-- The minutes branch floors to whole minutes. -/
lemma timeAgoOfSeconds_minutes (k r : Int) (h1 : 1 ≤ k) (h2 : k < 60)
    (h3 : 0 ≤ r) (h4 : r < 60) :
    timeAgoOfSeconds (60 * k + r) =
      toString k ++ " minute" ++ (if k ≠ 1 then "s" else "") ++ " ago" := by
  have hm : (60 * k + r) / 60 = k := by
    rw [add_comm, Int.add_mul_ediv_left r k (by norm_num : (60:Int) ≠ 0),
      Int.ediv_eq_zero_of_lt h3 h4, zero_add]
  simp only [timeAgoOfSeconds]
  rw [if_neg (by omega), if_pos (by omega), hm]

/-- The hours branch floors to whole hours. -/
lemma timeAgoOfSeconds_hours (k r : Int) (h1 : 1 ≤ k) (h2 : k < 24)
    (h3 : 0 ≤ r) (h4 : r < 3600) :
    timeAgoOfSeconds (3600 * k + r) =
      toString k ++ " hour" ++ (if k ≠ 1 then "s" else "") ++ " ago" := by
  have hm : (3600 * k + r) / 3600 = k := by
    rw [add_comm, Int.add_mul_ediv_left r k (by norm_num : (3600:Int) ≠ 0),
      Int.ediv_eq_zero_of_lt h3 h4, zero_add]
  simp only [timeAgoOfSeconds]
  rw [if_neg (by omega), if_neg (by omega), if_pos (by omega), hm]

/-- Claim C2: the sentinel "none" renders as "Never"; the quoted
boundary values of the elapsed whole-second count render as stated, with
correct pluralization; the minute and hour branches floor to whole units
for every value in their ranges; and a whole-second elapsed time reaches
the formatting chain unchanged by the truncation. -/
theorem relative_time_boundaries :
    (∀ (parse : String → Option Int) (nowUs : Int),
        get_time_ago parse nowUs "none" = "Never") ∧
    timeAgoOfSeconds 0 = "0 seconds ago" ∧
    timeAgoOfSeconds 59 = "59 seconds ago" ∧
    timeAgoOfSeconds 60 = "1 minute ago" ∧
    timeAgoOfSeconds 119 = "1 minute ago" ∧
    timeAgoOfSeconds 120 = "2 minutes ago" ∧
    timeAgoOfSeconds 3600 = "1 hour ago" ∧
    timeAgoOfSeconds 86400 = "1 day ago" ∧
    (∀ s : Int, secondsFromMicros (s * 1000000) = s) ∧
    (∀ k r : Int, 1 ≤ k → k < 60 → 0 ≤ r → r < 60 →
        timeAgoOfSeconds (60 * k + r) =
          toString k ++ " minute" ++ (if k ≠ 1 then "s" else "") ++ " ago") ∧
    (∀ k r : Int, 1 ≤ k → k < 24 → 0 ≤ r → r < 3600 →
        timeAgoOfSeconds (3600 * k + r) =
          toString k ++ " hour" ++ (if k ≠ 1 then "s" else "") ++ " ago") :=
  ⟨fun _ _ => rfl, by decide, by decide, by decide, by decide, by decide,
   by decide, by decide, secondsFromMicros_whole, timeAgoOfSeconds_minutes,
   timeAgoOfSeconds_hours⟩

/-- Witness for C2 at a concrete point of the floored minutes branch. -/
theorem relative_time_boundaries_witness :
    timeAgoOfSeconds (60 * 2 + 30) =
      toString (2 : Int) ++ " minute" ++
        (if (2 : Int) ≠ 1 then "s" else "") ++ " ago" :=
  relative_time_boundaries.2.2.2.2.2.2.2.2.2.1 2 30 (by decide) (by decide)
    (by decide) (by decide)

/-- Claim C6: a timestamp string on which the parse fails (other than the
sentinel values, which render as "Never") makes get_time_ago return the
parse-error label carrying the raw input, for every parse function and
every current time: the failure never propagates. -/
theorem malformed_timestamp_error_label :
    ∀ (parse : String → Option Int) (nowUs : Int) (s : String),
      s ≠ "none" → s ≠ "" → parse (s.replace "Z" "+00:00") = none →
      get_time_ago parse nowUs s = "Error parsing: " ++ s := by
  intro parse nowUs s h1 h2 hp
  unfold get_time_ago
  have hcond : ¬((s == "none") = true ∨ (s == "") = true) := by
    simp [h1, h2]
  rw [if_neg hcond, hp]

/-- Witness for C6 on a concrete unparseable string. -/
theorem malformed_timestamp_error_label_witness :
    get_time_ago (fun _ => none) 0 "garbage" = "Error parsing: " ++ "garbage" :=
  malformed_timestamp_error_label (fun _ => none) 0 "garbage" (by decide)
    (by decide) rfl

/-- Claim C9, counterexample to the claim as stated: a well-formed
timestamp strictly later than the current time does not always yield a
negative count.  Here the timestamp is half a second in the future
(timestamp 1000000 microseconds, now 500000 microseconds); the truncation
toward zero of `int(diff.total_seconds())` gives 0, and the output is
"0 seconds ago" rather than a "<N> seconds ago" with N negative. -/
theorem future_timestamp_counterexample :
    (500000 : Int) < 1000000 ∧
    get_time_ago (fun _ => some 1000000) 500000 "2025-01-01T00:00:01" =
      "0 seconds ago" := by
  constructor
  · norm_num
  · decide

/-- Claim C9, amended: a well-formed timestamp at least one whole second
later than the current time yields a negative elapsed-second count, which
falls into the under-60-seconds branch, so the output is
"<N> seconds ago" with N negative — no clamping and no error; a future
timestamp less than one second ahead truncates to a count of zero and
renders as "0 seconds ago". -/
theorem future_timestamp_seconds_ago :
    (∀ (parse : String → Option Int) (nowUs tUs : Int) (s : String),
      s ≠ "none" → s ≠ "" → parse (s.replace "Z" "+00:00") = some tUs →
      nowUs - tUs ≤ -1000000 →
      secondsFromMicros (nowUs - tUs) < 0 ∧
      get_time_ago parse nowUs s =
        toString (secondsFromMicros (nowUs - tUs)) ++ " seconds ago") ∧
    (∀ d : Int, -1000000 < d → d ≤ 0 → secondsFromMicros d = 0) := by
  constructor
  · intro parse nowUs tUs s h1 h2 hp hlate
    have hneg := secondsFromMicros_neg hlate
    refine ⟨hneg, ?_⟩
    unfold get_time_ago
    have hcond : ¬((s == "none") = true ∨ (s == "") = true) := by
      simp [h1, h2]
    rw [if_neg hcond, hp]
    simp only [timeAgoOfSeconds]
    rw [if_pos (by omega)]
  · intro d hd1 hd2
    exact secondsFromMicros_subsecond hd1 (by omega)

/-- Witness for the amended C9 at a timestamp five seconds in the
future. -/
theorem future_timestamp_seconds_ago_witness :
    secondsFromMicros ((0 : Int) - 5000000) < 0 ∧
    get_time_ago (fun _ => some 5000000) 0 "x" =
      toString (secondsFromMicros ((0 : Int) - 5000000)) ++ " seconds ago" :=
  future_timestamp_seconds_ago.1 (fun _ => some 5000000) 0 5000000 "x"
    (by decide) (by decide) rfl (by norm_num)

/-- Claim C3: the declared type strings route as stated — presence to
motion, temperature and light-level to the combined temperature/light
bucket, switch to switch, the two excluded types to no bucket, and every
other string to the other bucket — and each step of the grouping loop
appends the record to exactly the bucket selected by the classification
function (or to none). -/
theorem sensor_classification_spec :
    classifySensorType "ZLLPresence" = some .motion ∧
    classifySensorType "ZLLTemperature" = some .temperatureLight ∧
    classifySensorType "ZLLLightLevel" = some .temperatureLight ∧
    classifySensorType "ZLLSwitch" = some .dimmerSwitch ∧
    classifySensorType "Daylight" = none ∧
    classifySensorType "CLIPGenericStatus" = none ∧
    (∀ t : String, t ≠ "ZLLPresence" → t ≠ "ZLLTemperature" →
      t ≠ "ZLLLightLevel" → t ≠ "ZLLSwitch" → t ≠ "Daylight" →
      t ≠ "CLIPGenericStatus" → classifySensorType t = some .other) ∧
    (∀ (acc : Buckets) (id : String) (info : SensorInfo),
      groupStep acc (id, info) =
        appendToBucket acc (classifySensorType (sensorType info))
          (mkSensorData id info)) := by
  refine ⟨by decide, by decide, by decide, by decide, by decide, by decide,
    ?_, ?_⟩
  · intro t h1 h2 h3 h4 h5 h6
    simp [classifySensorType, h1, h2, h3, h4, h5, h6]
  · intro acc id info
    simp only [groupStep, appendToBucket, classifySensorType]
    split_ifs <;> rfl

/-- Witness for C3 on a type string outside the closed mapping. -/
theorem sensor_classification_spec_witness :
    classifySensorType "FooSensor" = some .other :=
  sensor_classification_spec.2.2.2.2.2.2.1 "FooSensor" (by decide) (by decide)
    (by decide) (by decide) (by decide) (by decide)

/-- Claim C7, counterexample to the claim as stated: the scripts check
`status_code == 200`, not membership in the 2xx range, so the 2xx status
201 is reported as an error by both configuration-push scripts even though
the claim says an error is reported exactly when the status is
non-2xx. -/
theorem config_push_2xx_counterexample :
    ((200 : Nat) ≤ 201 ∧ (201 : Nat) < 300) ∧
    runOfficeDimmerPush 201 "body" =
      [.httpPut officeDimmerUrl,
       .printLine ("\n[ERROR] Status: " ++ toString (201 : Nat)),
       .printLine "body"] ∧
    runOutdoorAutomationPush 201 "body" =
      [.httpPut outdoorAutomationUrl,
       .printLine ("\n✗ Error: " ++ toString (201 : Nat)),
       .printLine "body"] :=
  ⟨⟨by norm_num, by norm_num⟩, rfl, rfl⟩

/-- Claim C7, amended: each configuration-push script issues exactly one
PUT (no retry) and reports an error, printing the status code and the
response body, exactly when the response status differs from 200;
on status 200 it reports success together with the body echo. -/
theorem config_push_status_check :
    (∀ (status : Nat) (body : String), status ≠ 200 →
      runOfficeDimmerPush status body =
        [.httpPut officeDimmerUrl,
         .printLine ("\n[ERROR] Status: " ++ toString status),
         .printLine body]) ∧
    (∀ body : String, runOfficeDimmerPush 200 body =
        [.httpPut officeDimmerUrl,
         .printLine "\n[SUCCESS] OfficeDimmer simplified!",
         .printLine body]) ∧
    (∀ (status : Nat) (body : String), status ≠ 200 →
      runOutdoorAutomationPush status body =
        [.httpPut outdoorAutomationUrl,
         .printLine ("\n✗ Error: " ++ toString status),
         .printLine body]) ∧
    (∀ body : String, runOutdoorAutomationPush 200 body =
        [.httpPut outdoorAutomationUrl,
         .printLine "\n✓ Automation updated successfully!",
         .printLine body]) ∧
    (∀ (status : Nat) (body : String),
      putCount (runOfficeDimmerPush status body) = 1 ∧
      putCount (runOutdoorAutomationPush status body) = 1) := by
  refine ⟨?_, fun body => rfl, ?_, fun body => rfl, ?_⟩
  · intro status body h
    unfold runOfficeDimmerPush
    rw [if_neg (by simp [h])]
    rfl
  · intro status body h
    unfold runOutdoorAutomationPush
    rw [if_neg (by simp [h])]
    rfl
  · intro status body
    constructor <;>
      (simp only [runOfficeDimmerPush, runOutdoorAutomationPush, putCount]
       split_ifs <;> rfl)

/-- Witness for the amended C7 at status 500. -/
theorem config_push_status_check_witness :
    runOfficeDimmerPush 500 "oops" =
      [.httpPut officeDimmerUrl,
       .printLine ("\n[ERROR] Status: " ++ toString (500 : Nat)),
       .printLine "oops"] :=
  config_push_status_check.1 500 "oops" (by decide)

/-- Claim C8: a light that is on shows its 0..254 device brightness as a
0..100 percentage, 254 giving "100%" and 127 giving "50%", and a light
that is off shows "N/A" whatever the stored brightness. -/
theorem brightness_display_conversion :
    displayBrightness true 254 = "100%" ∧
    displayBrightness true 127 = "50%" ∧
    (∀ bri : Nat, displayBrightness false bri = "N/A") :=
  ⟨by decide, by decide, fun _ => rfl⟩

/-- Claim C10: every absent field of a sensor record is replaced by its
default — name and type by "Unknown", state and config by empty
sub-records — so a record with no type field is appended to the other
bucket, and a record with no lastupdated value is given the sentinel
"none" and displayed as "Never"; the formatter is total on such
records. -/
theorem sensor_missing_fields_defaults :
    (∀ info : SensorInfo, info.type = none → sensorType info = "Unknown") ∧
    (∀ (info : SensorInfo) (acc : Buckets) (id : String), info.type = none →
      groupStep acc (id, info) =
        { acc with other := acc.other ++ [mkSensorData id info] }) ∧
    (∀ info : SensorInfo, (sensorState info).lastupdated = none →
      sensorLastupdated info = "none") ∧
    (∀ (info : SensorInfo) (parse : String → Option Int) (nowUs : Int),
      (sensorState info).lastupdated = none →
      get_time_ago parse nowUs (sensorLastupdated info) = "Never") ∧
    sensorName {} = "Unknown" ∧ sensorType {} = "Unknown" ∧
    sensorState {} = ({} : SensorState) ∧
    sensorConfig {} = ({} : SensorConfig) := by
  have htype : ∀ info : SensorInfo, info.type = none →
      sensorType info = "Unknown" := by
    intro info h
    unfold sensorType
    rw [h]
    rfl
  have hlast : ∀ info : SensorInfo, (sensorState info).lastupdated = none →
      sensorLastupdated info = "none" := by
    intro info h
    unfold sensorLastupdated
    rw [h]
    rfl
  refine ⟨htype, ?_, hlast, ?_, rfl, rfl, rfl, rfl⟩
  · intro info acc id h
    simp [groupStep, htype info h]
  · intro info parse nowUs h
    rw [hlast info h]
    rfl

/-- Witness for C10 on the record with every field absent. -/
theorem sensor_missing_fields_defaults_witness :
    sensorType {} = "Unknown" ∧
    groupStep {} ("7", {}) =
      { ({} : Buckets) with
          other := ({} : Buckets).other ++ [mkSensorData "7" {}] } ∧
    get_time_ago (fun _ => some 0) 0 (sensorLastupdated {}) = "Never" :=
  ⟨sensor_missing_fields_defaults.1 {} rfl,
   sensor_missing_fields_defaults.2.1 {} {} "7" rfl,
   sensor_missing_fields_defaults.2.2.2.1 {} (fun _ => some 0) 0 rfl⟩

end HomeMonitor
